import Mathlib

/-!
Formal model of `nanobot/agent/tools/browse.py` (`WebBrowseTool`): the action
dispatcher, browser session lifecycle, and content-extraction pipeline. The
browser engine, URL validator and readability extractor are external
collaborators and are modelled as an explicit environment of (possibly
failing) capabilities; a capability that raises is modelled as
`Except.error msg`. The helpers `_strip_tags` and `_normalize` live in
`nanobot/agent/tools/web.py`, which is not part of the sources; they are
modelled from the specification's description of their behaviour.
-/

namespace WebBrowse

/-- JSON-like values, the codomain of the tool's result payloads. -/
inductive JVal where
  | s : String → JVal
  | i : Int → JVal
  | b : Bool → JVal
  | null : JVal
deriving DecidableEq, Repr

/-- A JSON object, modelled as an ordered association list (Python dicts
preserve insertion order, which `json.dumps` reproduces). -/
def JObj := List (String × JVal)
deriving instance DecidableEq, Repr for JObj

/-- The ordered list of keys of a result object. -/
def keysOf (o : JObj) : List String := o.map Prod.fst

/-- Whether a result object has a field named `k`. -/
def hasKey (o : JObj) (k : String) : Bool := (keysOf o).contains k

/-- Field lookup in a result object. -/
def getField (o : JObj) (k : String) : Option JVal :=
  List.lookup k (o : List (String × JVal))

/-- Whitespace characters, as Python's `\s` on the characters these inputs
contain. -/
def isWs (c : Char) : Bool :=
  c == ' ' || c == '\t' || c == '\n' || c == '\r'

/-- Representative emitted for a collapsed whitespace run containing `nl`
newline characters. -/
def wsRep (nl : Nat) : List Char :=
  if nl == 0 then [' '] else if nl == 1 then ['\n'] else ['\n', '\n']

/-- Collapse maximal whitespace runs. The accumulator is `some nl` while
inside a run that contained `nl` newlines so far. -/
def collapseWsAux : Option Nat → List Char → List Char
  | none, [] => []
  | some nl, [] => wsRep nl
  | none, c :: cs =>
    if isWs c then collapseWsAux (some (if c == '\n' then 1 else 0)) cs
    else c :: collapseWsAux none cs
  | some nl, c :: cs =>
    if isWs c then collapseWsAux (some (nl + (if c == '\n' then 1 else 0))) cs
    else wsRep nl ++ (c :: collapseWsAux none cs)

/-- Drop leading and trailing whitespace. -/
def trimWs (l : List Char) : List Char :=
  ((l.dropWhile isWs).reverse.dropWhile isWs).reverse

/-- Modelled from the spec: `_normalize` from `nanobot/agent/tools/web.py`
(not under the sources). Per the spec it normalizes whitespace by collapsing
runs of whitespace and trimming; since the spec's markdown rules emit
significant single and double newlines (and its acceptance example requires
`# Title` to survive as its own line), a run is collapsed to a single space,
a single newline, or a double newline according to the newlines it
contained, and the ends are trimmed. -/
def normalize (s : String) : String :=
  String.mk (trimWs (collapseWsAux none s.data))

/-- Tag-stripping scanner: the flag is true while inside a `<...>` span. -/
def stripTagsAux : Bool → List Char → List Char
  | _, [] => []
  | true, c :: cs => if c == '>' then stripTagsAux false cs else stripTagsAux true cs
  | false, c :: cs => if c == '<' then stripTagsAux true cs else c :: stripTagsAux false cs

/-- Modelled from the spec: `_strip_tags` from `nanobot/agent/tools/web.py`
(not under the sources). Per the spec it strips all remaining HTML tags:
every `<...>` span is removed from the string. -/
def stripTags (s : String) : String :=
  String.mk (stripTagsAux false s.data)

/-- Case-insensitive list-of-chars prefix test (the regexes in
`_to_markdown` all carry `re.I`). -/
def isPrefixCI : List Char → List Char → Bool
  | [], _ => true
  | _ :: _, [] => false
  | p :: ps, c :: cs => p.toLower == c.toLower && isPrefixCI ps cs

/-- Split at the first (leftmost, case-insensitive) occurrence of `pat`,
returning the text before it and the text after it — the lazy `([\s\S]*?)`
idiom used to capture tag bodies. -/
def splitFirstCI (pat : List Char) : List Char → Option (List Char × List Char)
  | [] => if isPrefixCI pat [] then some ([], []) else none
  | c :: cs =>
    if isPrefixCI pat (c :: cs) then some ([], (c :: cs).drop pat.length)
    else
      match splitFirstCI pat cs with
      | some (pre, post) => some (c :: pre, post)
      | none => none

/-- The single-quote character, written by code point. -/
def squote : Char := Char.ofNat 39

/-- The double-quote character, written by code point. -/
def dquote : Char := Char.ofNat 34

/-- Scan an anchor tag's attribute region (the characters before `>`) for
`href=` followed by a quoted non-empty URL, mirroring
`[^>]*href=["\x27]([^"\x27]+)["\x27]`. -/
def findHref (attrs : List Char) : Option (List Char) :=
  match splitFirstCI ['h', 'r', 'e', 'f', '='] attrs with
  | none => none
  | some (_, after) =>
    match after with
    | [] => none
    | q :: rest =>
      if q == dquote || q == squote then
        let url := rest.takeWhile (fun c => !(c == dquote) && !(c == squote))
        let rest2 := rest.dropWhile (fun c => !(c == dquote) && !(c == squote))
        if url.isEmpty then none
        else
          match rest2 with
          | q2 :: _ => if q2 == dquote || q2 == squote then some url else none
          | [] => none
      else none

/-- Try to match, at the head of the input, the anchor pattern
`<a\s+[^>]*href=["\x27]([^"\x27]+)["\x27][^>]*>([\s\S]*?)</a>` (with
`re.I`); on success return the href, the tag body, and the rest of the
input. -/
def matchAnchor : List Char → Option (List Char × List Char × List Char)
  | '<' :: a :: c :: cs =>
    if a.toLower == 'a' && isWs c then
      let attrs := (c :: cs).takeWhile (fun x => !(x == '>'))
      match (c :: cs).dropWhile (fun x => !(x == '>')) with
      | '>' :: afterGt =>
        match findHref attrs with
        | some url =>
          match splitFirstCI ['<', '/', 'a', '>'] afterGt with
          | some (body, rest) => some (url, body, rest)
          | none => none
        | none => none
      | _ => none
    else none
  | _ => none

/-- Try to match, at the head of the input, the heading pattern
`<h([1-6])[^>]*>([\s\S]*?)</h\1>` (with `re.I`); on success return the
heading level, the tag body, and the rest of the input. -/
def matchHeading : List Char → Option (Nat × List Char × List Char)
  | '<' :: h :: d :: cs =>
    if h.toLower == 'h' && ('1'.toNat ≤ d.toNat && d.toNat ≤ '6'.toNat) then
      match cs.dropWhile (fun x => !(x == '>')) with
      | '>' :: afterGt =>
        match splitFirstCI ['<', '/', 'h', d, '>'] afterGt with
        | some (body, rest) => some (d.toNat - '0'.toNat, body, rest)
        | none => none
      | _ => none
    else none
  | _ => none

/-- Try to match, at the head of the input, the list-item pattern
`<li[^>]*>([\s\S]*?)</li>` (with `re.I`). -/
def matchLi : List Char → Option (List Char × List Char)
  | '<' :: l :: i :: cs =>
    if l.toLower == 'l' && i.toLower == 'i' then
      match cs.dropWhile (fun x => !(x == '>')) with
      | '>' :: afterGt => splitFirstCI ['<', '/', 'l', 'i', '>'] afterGt
      | _ => none
    else none
  | _ => none

/-- Try to match, at the head of the input, a block-level closing tag
`</(p|div|section|article)>` (with `re.I`); on success return the rest. -/
def matchCloseBlock (l : List Char) : Option (List Char) :=
  if isPrefixCI ['<', '/', 'p', '>'] l then some (l.drop 4)
  else if isPrefixCI ['<', '/', 'd', 'i', 'v', '>'] l then some (l.drop 6)
  else if isPrefixCI ['<', '/', 's', 'e', 'c', 't', 'i', 'o', 'n', '>'] l then some (l.drop 10)
  else if isPrefixCI ['<', '/', 'a', 'r', 't', 'i', 'c', 'l', 'e', '>'] l then some (l.drop 10)
  else none

/-- Try to match, at the head of the input, a break tag `<(br|hr)\s*/?>`
(with `re.I`); on success return the rest. -/
def matchBreak : List Char → Option (List Char)
  | '<' :: c1 :: c2 :: cs =>
    if (c1.toLower == 'b' || c1.toLower == 'h') && c2.toLower == 'r' then
      match cs.dropWhile isWs with
      | '/' :: '>' :: r => some r
      | '>' :: r => some r
      | _ => none
    else none
  | _ => none

/-- Generic one-pass leftmost nonoverlapping substitution driver, as
`re.sub`: at each position try the matcher; on a match emit its replacement
and continue after the match, otherwise keep the character. The fuel is the
input length (every step consumes at least one character). -/
def subAux (step : List Char → Option (List Char × List Char)) : Nat → List Char → List Char
  | 0, l => l
  | _ + 1, [] => []
  | fuel + 1, c :: cs =>
    match step (c :: cs) with
    | some (repl, rest) => repl ++ subAux step fuel rest
    | none => c :: subAux step fuel cs

/-- Substitution pass 1: anchors become `[text](href)`, with the body
tag-stripped. -/
def anchorSub (s : String) : String :=
  let step := fun l =>
    (matchAnchor l).map fun x =>
      ('[' :: stripTagsAux false x.2.1 ++ ']' :: '(' :: x.1 ++ [')'], x.2.2)
  String.mk (subAux step s.data.length s.data)

/-- Substitution pass 2: headings `<hN>body</hN>` become a newline, `N`
hash marks, a space, the tag-stripped body, and a newline. -/
def headingSub (s : String) : String :=
  let step := fun l =>
    (matchHeading l).map fun x =>
      ('\n' :: List.replicate x.1 '#' ++ ' ' :: stripTagsAux false x.2.1 ++ ['\n'], x.2.2)
  String.mk (subAux step s.data.length s.data)

/-- Substitution pass 3: list items become a newline, `- `, and the
tag-stripped body. -/
def liSub (s : String) : String :=
  let step := fun l =>
    (matchLi l).map fun x => ('\n' :: '-' :: ' ' :: stripTagsAux false x.1, x.2)
  String.mk (subAux step s.data.length s.data)

/-- Substitution pass 4: block-level closing tags become a double newline. -/
def closeBlockSub (s : String) : String :=
  let step := fun l => (matchCloseBlock l).map fun rest => (['\n', '\n'], rest)
  String.mk (subAux step s.data.length s.data)

/-- Substitution pass 5: break/rule tags become a single newline. -/
def breakSub (s : String) : String :=
  let step := fun l => (matchBreak l).map fun rest => (['\n'], rest)
  String.mk (subAux step s.data.length s.data)

/-- Model of `WebBrowseTool._to_markdown`: the five substitution passes applied once
each, in order (anchors, headings, list items, block closers, breaks), then
tag-stripping and whitespace normalization. -/
def toMarkdown (html : String) : String :=
  normalize (stripTags (breakSub (closeBlockSub (liSub (headingSub (anchorSub html))))))

/-- The tool's mutable session state: `camoufox` models `self._camoufox`
(`none` = absent; `some false` = handle object created but `__aenter__` not
yet completed; `some true` = handle entered/initialized), `page` models
`self._page` (`some url` = a page whose current URL is `url`). `launches`
is ghost instrumentation counting attempted browser launches, the call
count the spec's test double places on the launch capability. -/
structure SessionState where
  camoufox : Option Bool := none
  page : Option String := none
  launches : Nat := 0
deriving DecidableEq, Repr

/-- The tool instance's constructor configuration (`workspace`,
`max_chars`, `screenshot_dir`). -/
structure ToolCfg where
  workspace : String
  maxChars : Nat := 50000
  screenshotDir : String := "screenshots"
deriving DecidableEq, Repr

/-- The external collaborators: browser engine, URL validator, readability
extractor, filesystem and clock. A capability that raises an exception is
modelled as `Except.error` carrying `str(e)`. -/
structure Env where
  validateUrl : String → Bool × String
  aenterR : Except String Unit
  newPageR : Except String Unit
  gotoR : String → String → Int → Except String (Option Int)
  finalUrlOf : String → String
  titleAt : String → Except String String
  contentAt : String → Except String String
  evaluateR : String → Except String String
  screenshotR : String → Except String Unit
  mkdirR : Except String Unit
  aexitR : Except String Unit
  readabilityTitle : String → String
  readabilitySummary : String → String
  time : Nat

/-- The keyword arguments `execute` forwards to the action handlers, with
the handlers' Python default values; fields irrelevant to an action are
ignored by it, as `**_` does. -/
structure Args where
  url : Option String := none
  waitUntil : String := "load"
  timeout : Int := 30000
  extractMode : String := "text"
  maxChars : Option Nat := none
  filename : Option String := none
  script : Option String := none

/-- Model of `WebBrowseTool._ensure_browser`: if a page exists, do nothing;
otherwise create the handle, enter it (`__aenter__`), and open a single
page, caching both. Either browser call may raise, in which case the
partially updated state is kept and the error propagates. -/
def ensureBrowser (env : Env) (s : SessionState) : Except String Unit × SessionState :=
  match s.page with
  | some _ => (Except.ok (), s)
  | none =>
    let s1 : SessionState := { s with camoufox := some false, launches := s.launches + 1 }
    match env.aenterR with
    | Except.error e => (Except.error e, s1)
    | Except.ok _ =>
      let s2 : SessionState := { s1 with camoufox := some true }
      match env.newPageR with
      | Except.error e => (Except.error e, s2)
      | Except.ok _ => (Except.ok (), { s2 with page := some "about:blank" })

/-- Model of `WebBrowseTool.close`: if a handle exists, attempt `__aexit__`,
suppressing any error it raises, and clear the handle; clear the page
unconditionally. -/
def close (env : Env) (s : SessionState) : SessionState :=
  match s.camoufox with
  | some _ =>
    match env.aexitR with
    | Except.ok _ => { s with camoufox := none, page := none }
    | Except.error _ => { s with camoufox := none, page := none }
  | none => { s with page := none }

/-- Convert an optional HTTP status (`response.status if response else
None`) to its JSON value. -/
def jStatus : Option Int → JVal
  | none => JVal.null
  | some n => JVal.i n

/-- Model of `WebBrowseTool._navigate`: require a non-empty URL, validate it, ensure
the browser, then `goto`, and report requested URL, final URL, status and
title. -/
def navigate (env : Env) (s : SessionState) (url? : Option String) (waitUntil : String)
    (timeout : Int) : Except String JObj × SessionState :=
  match url? with
  | none => (Except.ok [("error", JVal.s "url is required for navigate action")], s)
  | some url =>
    if url = "" then (Except.ok [("error", JVal.s "url is required for navigate action")], s)
    else
      match env.validateUrl url with
      | (false, msg) =>
        (Except.ok [("error", JVal.s ("URL validation failed: " ++ msg)), ("url", JVal.s url)], s)
      | (true, _) =>
        match ensureBrowser env s with
        | (Except.error e, s1) => (Except.error e, s1)
        | (Except.ok _, s1) =>
          match env.gotoR url waitUntil timeout with
          | Except.error e => (Except.error e, s1)
          | Except.ok status =>
            let fu := env.finalUrlOf url
            let s2 : SessionState := { s1 with page := some fu }
            match env.titleAt fu with
            | Except.error e => (Except.error e, s2)
            | Except.ok ti =>
              (Except.ok [("ok", JVal.b true), ("url", JVal.s url), ("finalUrl", JVal.s fu),
                ("status", jStatus status), ("title", JVal.s ti)], s2)

/-- The effective character cap: `maxChars or self.max_chars` (Python `or`,
so an absent or zero `maxChars` falls back to the tool default). -/
def effectiveCap (cfg : ToolCfg) (maxChars? : Option Nat) : Nat :=
  match maxChars? with
  | none => cfg.maxChars
  | some n => if n == 0 then cfg.maxChars else n

/-- Python string slicing `text[:n]` for a nonnegative cap. -/
def pyTruncate (s : String) (n : Nat) : String :=
  String.mk (s.data.take n)

/-- The pre-truncation extracted text: run readability on the page HTML,
convert its summary per the requested mode, and prepend the detected title
as a level-1 heading when non-empty. -/
def extractText (env : Env) (mode : String) (html : String) : String :=
  let summary := env.readabilitySummary html
  let t0 := if mode = "markdown" then toMarkdown summary else normalize (stripTags summary)
  let dt := env.readabilityTitle html
  if dt = "" then t0 else "# " ++ dt ++ "\n\n" ++ t0

/-- Model of `WebBrowseTool._get_content`: require a loaded page, read title/URL/HTML
from it, extract text, truncate at the effective cap, and report the
extraction result. -/
def getContent (env : Env) (cfg : ToolCfg) (s : SessionState) (mode : String)
    (maxChars? : Option Nat) : Except String JObj × SessionState :=
  match s.page with
  | none => (Except.ok [("error", JVal.s "No page loaded. Use navigate first.")], s)
  | some pageUrl =>
    let maxC := effectiveCap cfg maxChars?
    match env.titleAt pageUrl with
    | Except.error e => (Except.error e, s)
    | Except.ok ti =>
      match env.contentAt pageUrl with
      | Except.error e => (Except.error e, s)
      | Except.ok html =>
        let text1 := extractText env mode html
        let tr : Bool := decide (maxC < text1.length)
        let text2 := if tr then pyTruncate text1 maxC else text1
        (Except.ok [("url", JVal.s pageUrl), ("title", JVal.s ti),
          ("extractor", JVal.s "readability"), ("truncated", JVal.b tr),
          ("length", JVal.i (Int.ofNat text2.length)), ("text", JVal.s text2)], s)

/-- Model of `WebBrowseTool._screenshot`: require a loaded page, create the
screenshot directory, derive the filename (timestamp default, `.png`
enforced), take the screenshot, and report the path. -/
def screenshot (env : Env) (cfg : ToolCfg) (s : SessionState) (filename? : Option String) :
    Except String JObj × SessionState :=
  match s.page with
  | none => (Except.ok [("error", JVal.s "No page loaded. Use navigate first.")], s)
  | some pageUrl =>
    match env.mkdirR with
    | Except.error e => (Except.error e, s)
    | Except.ok _ =>
      let f0 :=
        match filename? with
        | none => "screenshot_" ++ toString env.time ++ ".png"
        | some f => if f = "" then "screenshot_" ++ toString env.time ++ ".png" else f
      let f1 := if f0.endsWith ".png" then f0 else f0 ++ ".png"
      let path := cfg.workspace ++ "/" ++ cfg.screenshotDir ++ "/" ++ f1
      match env.screenshotR path with
      | Except.error e => (Except.error e, s)
      | Except.ok _ =>
        (Except.ok [("ok", JVal.b true), ("path", JVal.s path), ("url", JVal.s pageUrl)], s)

/-- Model of `WebBrowseTool._execute_js`: require a non-empty script, then a loaded
page, then evaluate the script (result coerced to its string form by the
serializer's `default=str`). -/
def executeJs (env : Env) (s : SessionState) (script? : Option String) :
    Except String JObj × SessionState :=
  match script? with
  | none => (Except.ok [("error", JVal.s "script is required for execute_js action")], s)
  | some sc =>
    if sc = "" then (Except.ok [("error", JVal.s "script is required for execute_js action")], s)
    else
      match s.page with
      | none => (Except.ok [("error", JVal.s "No page loaded. Use navigate first.")], s)
      | some _ =>
        match env.evaluateR sc with
        | Except.error e => (Except.error e, s)
        | Except.ok v => (Except.ok [("ok", JVal.b true), ("result", JVal.s v)], s)

/-- The body of `WebBrowseTool.execute`'s `try` block: the action dispatch,
before the boundary `except` converts an error into a payload. -/
def executeExc (env : Env) (cfg : ToolCfg) (s : SessionState) (action : String) (a : Args) :
    Except String JObj × SessionState :=
  if action = "navigate" then navigate env s a.url a.waitUntil a.timeout
  else if action = "get_content" then getContent env cfg s a.extractMode a.maxChars
  else if action = "screenshot" then screenshot env cfg s a.filename
  else if action = "execute_js" then executeJs env s a.script
  else if action = "close" then
    (Except.ok [("ok", JVal.b true), ("message", JVal.s "Browser closed")], close env s)
  else (Except.ok [("error", JVal.s ("Unknown action: " ++ action))], s)

/-- The dispatcher's boundary `except Exception as e: return
json.dumps({"error": str(e)})`. -/
def wrap : Except String JObj → JObj
  | Except.ok o => o
  | Except.error e => [("error", JVal.s e)]

/-- Model of `WebBrowseTool.execute`: dispatch and catch, so a payload is always
returned and no failure ever propagates. -/
def execute (env : Env) (cfg : ToolCfg) (s : SessionState) (action : String) (a : Args) :
    JObj × SessionState :=
  let r := executeExc env cfg s action a
  (wrap r.1, r.2)

/-- One parameter's entry in the tool's JSON-schema `parameters`
declaration. -/
structure ParamSpec where
  type : String
  enumVals : List String := []
  minimum : Option Int := none
  maximum : Option Int := none
deriving DecidableEq, Repr

/-- Model of `WebBrowseTool.parameters`: the declared properties of the tool's
parameter schema (`required` is `["action"]`). -/
def parameters : List (String × ParamSpec) :=
  [("action", ParamSpec.mk "string" ["navigate", "get_content", "screenshot", "execute_js", "close"] none none),
   ("url", ParamSpec.mk "string" [] none none),
   ("waitUntil", ParamSpec.mk "string" ["load", "domcontentloaded", "networkidle", "commit"] none none),
   ("timeout", ParamSpec.mk "integer" [] (some 1000) (some 120000)),
   ("extractMode", ParamSpec.mk "string" ["text", "markdown"] none none),
   ("maxChars", ParamSpec.mk "integer" [] (some 100) none),
   ("filename", ParamSpec.mk "string" [] none none),
   ("script", ParamSpec.mk "string" [] none none)]

def successKeySets : List (List String) :=
  [["ok", "url", "finalUrl", "status", "title"],
   ["url", "title", "extractor", "truncated", "length", "text"],
   ["ok", "path", "url"],
   ["ok", "result"],
   ["ok", "message"]]

def isErrShape (o : JObj) : Bool :=
  match getField o "error" with
  | some (JVal.s _) => keysOf o == ["error"] || keysOf o == ["error", "url"]
  | _ => false

def isSuccessShape (o : JObj) : Bool := successKeySets.contains (keysOf o)

def goodResult (o : JObj) : Bool :=
  (isErrShape o && !isSuccessShape o) || (isSuccessShape o && !(hasKey o "error"))

def shapeOKE : Except String JObj → Bool
  | Except.error _ => true
  | Except.ok o => goodResult o

def invFull (s : SessionState) : Bool := s.page.isSome == (s.camoufox == some true)

def invWeak (s : SessionState) : Bool := !s.page.isSome || (s.camoufox == some true)

def cfg0 : ToolCfg := { workspace := "ws" }

def okEnv : Env :=
  ⟨fun _ => (true, ""), Except.ok (), Except.ok (), fun _ _ _ => Except.ok (some 200),
   fun u => u, fun _ => Except.ok "T", fun _ => Except.ok "<p>hi</p>", fun _ => Except.ok "42",
   fun _ => Except.ok (), Except.ok (), Except.ok (), fun _ => "", fun _ => "", 0⟩

def s0 : SessionState := ⟨none, none, 0⟩

def sLoaded : SessionState := ⟨some true, some "http://p", 1⟩

def envC2 : Env := { okEnv with readabilitySummary := fun _ => String.mk (List.replicate 500 'a') }

def envJsFail : Env := { okEnv with evaluateR := fun _ => Except.error "boom" }

def envNPFail : Env := { okEnv with newPageR := Except.error "new_page failed" }

def envBadUrl : Env := { okEnv with validateUrl := fun _ => (false, "bad scheme") }

def envNullStatus : Env := { okEnv with gotoR := fun _ _ _ => Except.ok none }

def argsC2 : Args := { maxChars := some 100 }

def argsNav : Args := { url := some "http://e" }

def argsJs : Args := { script := some "1+1" }

def args0 : Args := {}

def truncatedText (pre : String) (cap : Nat) : String :=
  if decide (cap < pre.length) then pyTruncate pre cap else pre

def c3Html : String := "<article><h1>Title</h1><p>Hello <a href='http://x'>world</a></p></article>"

/-- Split a character list into lines at newline characters (structural,
so concrete instances evaluate). -/
def splitLinesAux : List Char → List Char → List String
  | acc, [] => [String.mk acc.reverse]
  | acc, c :: cs =>
    if c == '\n' then String.mk acc.reverse :: splitLinesAux [] cs
    else splitLinesAux (c :: acc) cs

/-- The lines of a string. -/
def linesOf (s : String) : List String := splitLinesAux [] s.data

theorem navigate_shape (env : Env) (s : SessionState) (u : Option String) (w : String)
    (t : Int) : shapeOKE (navigate env s u w t).1 = true := by
  unfold navigate
  dsimp only
  repeat' split
  all_goals rfl

theorem getContent_shape (env : Env) (cfg : ToolCfg) (s : SessionState) (m : String)
    (mc : Option Nat) : shapeOKE (getContent env cfg s m mc).1 = true := by
  unfold getContent
  dsimp only
  repeat' split
  all_goals rfl

theorem screenshot_shape (env : Env) (cfg : ToolCfg) (s : SessionState) (f : Option String) :
    shapeOKE (screenshot env cfg s f).1 = true := by
  unfold screenshot
  dsimp only
  repeat' split
  all_goals rfl

theorem executeJs_shape (env : Env) (s : SessionState) (sc : Option String) :
    shapeOKE (executeJs env s sc).1 = true := by
  unfold executeJs
  repeat' split
  all_goals rfl

theorem executeExc_shape (env : Env) (cfg : ToolCfg) (s : SessionState) (action : String)
    (a : Args) : shapeOKE (executeExc env cfg s action a).1 = true := by
  unfold executeExc
  repeat' split
  all_goals first
    | exact navigate_shape env s a.url a.waitUntil a.timeout
    | exact getContent_shape env cfg s a.extractMode a.maxChars
    | exact screenshot_shape env cfg s a.filename
    | exact executeJs_shape env s a.script
    | rfl

theorem ensureBrowser_noop (env : Env) (s : SessionState) (h : s.page.isSome = true) :
    ensureBrowser env s = (Except.ok (), s) := by
  unfold ensureBrowser
  cases hp : s.page with
  | none => rw [hp] at h; simp at h
  | some u => rfl

theorem ensureBrowser_launch (env : Env) (s : SessionState) (hp : s.page = none)
    (ha : env.aenterR = Except.ok ()) (hn : env.newPageR = Except.ok ()) :
    ensureBrowser env s =
      (Except.ok (), { s with camoufox := some true, page := some "about:blank",
                              launches := s.launches + 1 }) := by
  unfold ensureBrowser
  rw [hp, ha, hn]

theorem ensureBrowser_weak (env : Env) (s : SessionState) (h : invWeak s = true) :
    invWeak (ensureBrowser env s).2 = true := by
  unfold ensureBrowser
  cases hp : s.page with
  | some u => exact h
  | none =>
    cases env.aenterR with
    | error e => simp [invWeak, hp]
    | ok _ =>
      cases env.newPageR with
      | error e => simp [invWeak]
      | ok _ => simp [invWeak]

theorem ensureBrowser_ok_cam (env : Env) (s : SessionState) (a : Unit) (s1 : SessionState)
    (h : invWeak s = true) (he : ensureBrowser env s = (Except.ok a, s1)) :
    s1.camoufox = some true := by
  unfold ensureBrowser at he
  cases hp : s.page with
  | some u =>
    rw [hp] at he
    simp at he
    rw [invWeak, hp] at h
    simp at h
    rw [← he]
    exact h
  | none =>
    rw [hp] at he
    cases ha : env.aenterR with
    | error e => rw [ha] at he; simp at he
    | ok _ =>
      rw [ha] at he
      cases hn : env.newPageR with
      | error e => rw [hn] at he; simp at he
      | ok _ => rw [hn] at he; simp at he; rw [← he]

theorem ensureBrowser_full (env : Env) (s : SessionState)
    (ha : env.aenterR = Except.ok ()) (hn : env.newPageR = Except.ok ())
    (h : invFull s = true) : invFull (ensureBrowser env s).2 = true := by
  cases hp : s.page with
  | some u => rw [ensureBrowser_noop env s (by rw [hp]; rfl)]; exact h
  | none => rw [ensureBrowser_launch env s hp ha hn]; rfl

theorem navigate_weak (env : Env) (s : SessionState) (u : Option String) (w : String)
    (t : Int) (h : invWeak s = true) : invWeak (navigate env s u w t).2 = true := by
  unfold navigate
  cases u with
  | none => exact h
  | some url =>
    by_cases hu : url = ""
    · simp only [if_pos hu]; exact h
    · simp only [if_neg hu]
      rcases hv : env.validateUrl url with ⟨b, m⟩
      cases b
      · exact h
      · rcases he : ensureBrowser env s with ⟨r, s1⟩
        have hw := ensureBrowser_weak env s h
        rw [he] at hw
        cases r with
        | error e => exact hw
        | ok a =>
          have hc := ensureBrowser_ok_cam env s a s1 h he
          cases env.gotoR url w t with
          | error e => exact hw
          | ok st =>
            cases env.titleAt (env.finalUrlOf url) with
            | error e => simp [invWeak, hc]
            | ok ti => simp [invWeak, hc]

theorem navigate_full (env : Env) (s : SessionState) (u : Option String) (w : String)
    (t : Int) (ha : env.aenterR = Except.ok ()) (hn : env.newPageR = Except.ok ())
    (h : invFull s = true) : invFull (navigate env s u w t).2 = true := by
  have hwk : invWeak s = true := by
    rw [invFull] at h
    rw [invWeak]
    cases hp : s.page with
    | none => rfl
    | some x => rw [hp] at h; simp at h ⊢; exact h
  unfold navigate
  cases u with
  | none => exact h
  | some url =>
    by_cases hu : url = ""
    · simp only [if_pos hu]; exact h
    · simp only [if_neg hu]
      rcases hv : env.validateUrl url with ⟨b, m⟩
      cases b
      · exact h
      · rcases he : ensureBrowser env s with ⟨r, s1⟩
        have hf := ensureBrowser_full env s ha hn h
        rw [he] at hf
        cases r with
        | error e => exact hf
        | ok a =>
          have hc := ensureBrowser_ok_cam env s a s1 hwk he
          cases env.gotoR url w t with
          | error e => exact hf
          | ok st =>
            cases env.titleAt (env.finalUrlOf url) with
            | error e => simp [invFull, hc]
            | ok ti => simp [invFull, hc]

theorem navigate_nolaunch (env : Env) (s : SessionState) (u : Option String) (w : String)
    (t : Int) (hp : s.page.isSome = true) :
    (navigate env s u w t).2.launches = s.launches ∧
    (navigate env s u w t).2.page.isSome = true := by
  unfold navigate
  cases u with
  | none => exact ⟨rfl, hp⟩
  | some url =>
    by_cases hu : url = ""
    · simp [hu, hp]
    · simp only [if_neg hu]
      rcases hv : env.validateUrl url with ⟨b, m⟩
      cases b
      · exact ⟨rfl, hp⟩
      · rw [ensureBrowser_noop env s hp]
        cases env.gotoR url w t with
        | error e => exact ⟨rfl, hp⟩
        | ok st =>
          cases env.titleAt (env.finalUrlOf url) with
          | error e => exact ⟨rfl, rfl⟩
          | ok ti => exact ⟨rfl, rfl⟩

theorem navigate_launch (env : Env) (s : SessionState) (url : String) (w : String) (t : Int)
    (hu : url ≠ "") (hv : (env.validateUrl url).1 = true) (ha : env.aenterR = Except.ok ())
    (hn : env.newPageR = Except.ok ()) (hp : s.page = none) :
    (navigate env s (some url) w t).2.launches = s.launches + 1 ∧
    (navigate env s (some url) w t).2.page.isSome = true := by
  unfold navigate
  simp only [if_neg hu]
  rcases hvp : env.validateUrl url with ⟨b, m⟩
  rw [hvp] at hv
  cases b
  · simp at hv
  · rw [ensureBrowser_launch env s hp ha hn]
    cases env.gotoR url w t with
    | error e => exact ⟨rfl, rfl⟩
    | ok st =>
      cases env.titleAt (env.finalUrlOf url) with
      | error e => exact ⟨rfl, rfl⟩
      | ok ti => exact ⟨rfl, rfl⟩

theorem getContent_state (env : Env) (cfg : ToolCfg) (s : SessionState) (m : String)
    (mc : Option Nat) : (getContent env cfg s m mc).2 = s := by
  unfold getContent
  dsimp only
  repeat' split
  all_goals rfl

theorem screenshot_state (env : Env) (cfg : ToolCfg) (s : SessionState) (f : Option String) :
    (screenshot env cfg s f).2 = s := by
  unfold screenshot
  dsimp only
  repeat' split
  all_goals rfl

theorem executeJs_state (env : Env) (s : SessionState) (sc : Option String) :
    (executeJs env s sc).2 = s := by
  unfold executeJs
  repeat' split
  all_goals rfl

theorem close_clears (env : Env) (s : SessionState) :
    (close env s).camoufox = none ∧ (close env s).page = none ∧
    (close env s).launches = s.launches := by
  unfold close
  cases hc : s.camoufox with
  | none => exact ⟨rfl, rfl, rfl⟩
  | some b =>
    cases env.aexitR with
    | error e => exact ⟨rfl, rfl, rfl⟩
    | ok a => exact ⟨rfl, rfl, rfl⟩

theorem executeExc_weak (env : Env) (cfg : ToolCfg) (s : SessionState) (action : String)
    (a : Args) (h : invWeak s = true) : invWeak (executeExc env cfg s action a).2 = true := by
  unfold executeExc
  repeat' split
  · exact navigate_weak env s a.url a.waitUntil a.timeout h
  · rw [getContent_state]; exact h
  · rw [screenshot_state]; exact h
  · rw [executeJs_state]; exact h
  · have hc := close_clears env s
    simp [invWeak, hc.2.1]
  · exact h

theorem executeExc_full (env : Env) (cfg : ToolCfg) (s : SessionState) (action : String)
    (a : Args) (ha : env.aenterR = Except.ok ()) (hn : env.newPageR = Except.ok ())
    (h : invFull s = true) : invFull (executeExc env cfg s action a).2 = true := by
  unfold executeExc
  repeat' split
  · exact navigate_full env s a.url a.waitUntil a.timeout ha hn h
  · rw [getContent_state]; exact h
  · rw [screenshot_state]; exact h
  · rw [executeJs_state]; exact h
  · have hc := close_clears env s
    simp [invFull, hc.1, hc.2.1]
  · exact h

/-- C1: for every action name (including unknown ones) and every parameter
combination, `execute` totally returns a payload that is either an error
shape (an `error` string field, with at most a `url` alongside) or one of
the five success shapes, never both and never neither; and any error raised
by an underlying capability is caught at the boundary and converted to a
payload whose `error` field is the exception's message. -/
theorem c1_dispatcher_total :
    (∀ env cfg s action a, goodResult (execute env cfg s action a).1 = true) ∧
    (∀ env cfg s action a e s2,
        executeExc env cfg s action a = (Except.error e, s2) →
        execute env cfg s action a = ([("error", JVal.s e)], s2)) := by
  constructor
  · intro env cfg s action a
    have h := executeExc_shape env cfg s action a
    show goodResult (wrap (executeExc env cfg s action a).1) = true
    cases hr : (executeExc env cfg s action a).1 with
    | error e => rfl
    | ok o => rw [hr] at h; exact h
  · intro env cfg s action a e s2 h
    show (wrap (executeExc env cfg s action a).1, (executeExc env cfg s action a).2) = _
    rw [h]
    rfl

/-- Witness for C1: a concrete capability failure (`evaluate` raising
"boom") is converted into the error payload carrying that message. -/
theorem c1_dispatcher_total_witness :
    execute envJsFail cfg0 sLoaded "execute_js" argsJs = ([("error", JVal.s "boom")], sLoaded) :=
  c1_dispatcher_total.2 envJsFail cfg0 sLoaded "execute_js" argsJs "boom" sLoaded rfl

/-- C5: close is idempotent and total — for every environment (including one
whose shutdown capability raises) and every starting state, the close action
returns the fixed ok payload and clears both handle and page, and a second
close returns the same payload again. -/
theorem c5_close_idempotent (env : Env) (cfg : ToolCfg) (s : SessionState) (a a2 : Args) :
    (execute env cfg s "close" a).1 = [("ok", JVal.b true), ("message", JVal.s "Browser closed")] ∧
    (execute env cfg s "close" a).2.camoufox = none ∧
    (execute env cfg s "close" a).2.page = none ∧
    (execute env cfg (execute env cfg s "close" a).2 "close" a2).1 =
      [("ok", JVal.b true), ("message", JVal.s "Browser closed")] :=
  ⟨rfl, (close_clears env s).1, (close_clears env s).2.1, rfl⟩

/-- C8: get_content and screenshot called with no page loaded return exactly
the "No page loaded" error payload and leave the state unchanged. -/
theorem c8_no_page_error (env : Env) (cfg : ToolCfg) (s : SessionState) (a : Args)
    (hp : s.page = none) :
    execute env cfg s "get_content" a =
      ([("error", JVal.s "No page loaded. Use navigate first.")], s) ∧
    execute env cfg s "screenshot" a =
      ([("error", JVal.s "No page loaded. Use navigate first.")], s) := by
  constructor
  · show (wrap (getContent env cfg s a.extractMode a.maxChars).1,
          (getContent env cfg s a.extractMode a.maxChars).2) = _
    have hg : getContent env cfg s a.extractMode a.maxChars =
        (Except.ok [("error", JVal.s "No page loaded. Use navigate first.")], s) := by
      unfold getContent
      rw [hp]
    rw [hg]
    rfl
  · show (wrap (screenshot env cfg s a.filename).1, (screenshot env cfg s a.filename).2) = _
    have hg : screenshot env cfg s a.filename =
        (Except.ok [("error", JVal.s "No page loaded. Use navigate first.")], s) := by
      unfold screenshot
      rw [hp]
    rw [hg]
    rfl

/-- Witness for C8 at the fresh state (before any navigate). -/
theorem c8_no_page_error_witness :
    execute okEnv cfg0 s0 "get_content" args0 =
      ([("error", JVal.s "No page loaded. Use navigate first.")], s0) ∧
    execute okEnv cfg0 s0 "screenshot" args0 =
      ([("error", JVal.s "No page loaded. Use navigate first.")], s0) :=
  c8_no_page_error okEnv cfg0 s0 args0 rfl

/-- C10: execute_js with an absent or empty script returns the
script-required error regardless of the session state — the script check
precedes the no-page check. -/
theorem c10_script_before_page (env : Env) (cfg : ToolCfg) (s : SessionState) (a : Args)
    (h : a.script = none ∨ a.script = some "") :
    execute env cfg s "execute_js" a =
      ([("error", JVal.s "script is required for execute_js action")], s) := by
  show (wrap (executeJs env s a.script).1, (executeJs env s a.script).2) = _
  rcases h with h | h <;> rw [h] <;> rfl

/-- Witness for C10 where both preconditions fail (no script and no page):
the script error is the one returned. -/
theorem c10_script_before_page_witness :
    execute okEnv cfg0 s0 "execute_js" args0 =
      ([("error", JVal.s "script is required for execute_js action")], s0) :=
  c10_script_before_page okEnv cfg0 s0 args0 (Or.inl rfl)

/-- C4: navigate with a URL that fails validation returns an error payload
whose message carries the validator's message verbatim and whose `url`
field equals the input, and the session state (handle, page, and launch
count) is exactly unchanged — no navigation or launch is attempted. -/
theorem c4_invalid_url (env : Env) (cfg : ToolCfg) (s : SessionState) (a : Args)
    (url msg : String) (ha : a.url = some url) (hu : url ≠ "")
    (hv : env.validateUrl url = (false, msg)) :
    execute env cfg s "navigate" a =
      ([("error", JVal.s ("URL validation failed: " ++ msg)), ("url", JVal.s url)], s) := by
  show (wrap (navigate env s a.url a.waitUntil a.timeout).1,
        (navigate env s a.url a.waitUntil a.timeout).2) = _
  rw [ha]
  simp only [navigate, if_neg hu, hv]
  rfl

/-- Witness for C4: the spec's example input "not a url" with a concrete
failing validator. -/
theorem c4_invalid_url_witness :
    execute envBadUrl cfg0 s0 "navigate" { url := some "not a url" } =
      ([("error", JVal.s "URL validation failed: bad scheme"), ("url", JVal.s "not a url")], s0) :=
  c4_invalid_url envBadUrl cfg0 s0 { url := some "not a url" } "not a url" "bad scheme"
    rfl (by decide) rfl

/-- C6: session acquisition is idempotent — with a page present it is a
no-op (no state change, no launch); with no page it performs exactly one
launch and opens one page, caching both; hence two consecutive navigate
calls on the same instance perform exactly one launch. -/
theorem c6_single_launch :
    (∀ env s, s.page.isSome = true → ensureBrowser env s = (Except.ok (), s)) ∧
    (∀ env s, s.page = none → env.aenterR = Except.ok () → env.newPageR = Except.ok () →
       ensureBrowser env s = (Except.ok (),
         { s with camoufox := some true, page := some "about:blank",
                  launches := s.launches + 1 })) ∧
    (∀ env cfg s a url, a.url = some url → url ≠ "" → (env.validateUrl url).1 = true →
       env.aenterR = Except.ok () → env.newPageR = Except.ok () → s.page = none →
       (execute env cfg (execute env cfg s "navigate" a).2 "navigate" a).2.launches
         = s.launches + 1) := by
  refine ⟨ensureBrowser_noop, ensureBrowser_launch, ?_⟩
  intro env cfg s a url ha hu hv hae hn hp
  have e2 : ∀ s2, (execute env cfg s2 "navigate" a).2
      = (navigate env s2 a.url a.waitUntil a.timeout).2 := fun _ => rfl
  rw [e2, e2, ha]
  have h1 := navigate_launch env s url a.waitUntil a.timeout hu hv hae hn hp
  have h2 := navigate_nolaunch env (navigate env s (some url) a.waitUntil a.timeout).2
    (some url) a.waitUntil a.timeout h1.2
  rw [h2.1, h1.1]

/-- Witness for C6: a concrete no-op acquisition on a loaded session, and a
concrete double navigate from the fresh state performing one launch. -/
theorem c6_single_launch_witness :
    ensureBrowser okEnv sLoaded = (Except.ok (), sLoaded) ∧
    (execute okEnv cfg0 (execute okEnv cfg0 s0 "navigate" argsNav).2 "navigate" argsNav).2.launches
      = 1 :=
  ⟨c6_single_launch.1 okEnv sLoaded rfl,
   c6_single_launch.2.2 okEnv cfg0 s0 argsNav "http://e" rfl (by decide) rfl rfl rfl rfl⟩

/-- C7 counterexample: the claimed iff-invariant (page present iff handle
present and initialized) is broken by an action whose page-opening
capability raises — after such a navigate the handle is present and
initialized but the page is absent, while the dispatcher duly reports the
error payload. -/
theorem c7_counterexample :
    invFull ((execute envNPFail cfg0 s0 "navigate" argsNav).2) = false ∧
    (execute envNPFail cfg0 s0 "navigate" argsNav).1
      = [("error", JVal.s "new_page failed")] ∧
    (execute envNPFail cfg0 s0 "navigate" argsNav).2.camoufox = some true ∧
    (execute envNPFail cfg0 s0 "navigate" argsNav).2.page = none :=
  ⟨rfl, rfl, rfl, rfl⟩

/-- C7 amended: both fields are absent initially; after every action (even
with raising capabilities) a present page implies a present and initialized
handle; and the full iff-invariant is preserved by every action whenever
the launch capabilities (browser enter and page opening) do not raise. -/
theorem c7_session_invariant :
    (invFull (SessionState.mk none none 0) = true ∧
     (SessionState.mk none none 0).camoufox = none ∧
     (SessionState.mk none none 0).page = none) ∧
    (∀ env cfg s action a, invWeak s = true →
       invWeak (execute env cfg s action a).2 = true) ∧
    (∀ env cfg s action a, env.aenterR = Except.ok () → env.newPageR = Except.ok () →
       invFull s = true → invFull (execute env cfg s action a).2 = true) := by
  refine ⟨⟨rfl, rfl, rfl⟩, ?_, ?_⟩
  · intro env cfg s action a h
    exact executeExc_weak env cfg s action a h
  · intro env cfg s action a ha hn h
    exact executeExc_full env cfg s action a ha hn h

/-- Witness for C7 amended: both invariants preserved across a concrete
successful navigate from the fresh state. -/
theorem c7_session_invariant_witness :
    invWeak (execute okEnv cfg0 s0 "navigate" argsNav).2 = true ∧
    invFull (execute okEnv cfg0 s0 "navigate" argsNav).2 = true :=
  ⟨c7_session_invariant.2.1 okEnv cfg0 s0 "navigate" argsNav rfl,
   c7_session_invariant.2.2 okEnv cfg0 s0 "navigate" argsNav rfl rfl rfl⟩

/-- C9: the schema constrains `timeout` to [1000, 120000] and `waitUntil`
to its four wait conditions; the handler defaults are `load` and 30000 ms;
and a successful navigate (invoked with only a URL, so defaults apply)
calls the engine with those defaults and records the requested URL, the
post-redirect final URL, the nullable HTTP status and the page title. -/
theorem c9_navigate_contract :
    (List.lookup "timeout" parameters
       = some (ParamSpec.mk "integer" [] (some 1000) (some 120000))) ∧
    (List.lookup "waitUntil" parameters
       = some (ParamSpec.mk "string" ["load", "domcontentloaded", "networkidle", "commit"]
           none none)) ∧
    (({ url := none } : Args).waitUntil = "load" ∧ ({ url := none } : Args).timeout = 30000) ∧
    (∀ env cfg s p url st ti, s.page = some p → url ≠ "" →
       (env.validateUrl url).1 = true →
       env.gotoR url "load" 30000 = Except.ok st →
       env.titleAt (env.finalUrlOf url) = Except.ok ti →
       execute env cfg s "navigate" { url := some url } =
         ([("ok", JVal.b true), ("url", JVal.s url),
           ("finalUrl", JVal.s (env.finalUrlOf url)),
           ("status", jStatus st), ("title", JVal.s ti)],
          { s with page := some (env.finalUrlOf url) })) := by
  refine ⟨rfl, rfl, ⟨rfl, rfl⟩, ?_⟩
  intro env cfg s p url st ti hp hu hv hg ht
  have hs : s.page.isSome = true := by rw [hp]; rfl
  rcases hvp : env.validateUrl url with ⟨b, m⟩
  rw [hvp] at hv
  cases b
  · simp at hv
  · show (wrap (navigate env s (some url) "load" 30000).1,
          (navigate env s (some url) "load" 30000).2) = _
    simp only [navigate, if_neg hu, hvp, ensureBrowser_noop env s hs, hg, ht]
    rfl

/-- Witness for C9: a concrete successful navigate with a null HTTP status
(engine returned no response object). -/
theorem c9_navigate_contract_witness :
    execute envNullStatus cfg0 sLoaded "navigate" { url := some "http://a" } =
      ([("ok", JVal.b true), ("url", JVal.s "http://a"), ("finalUrl", JVal.s "http://a"),
        ("status", JVal.null), ("title", JVal.s "T")],
       { sLoaded with page := some "http://a" }) :=
  c9_navigate_contract.2.2.2 envNullStatus cfg0 sLoaded "http://p" "http://a" none "T"
    rfl (by decide) rfl rfl rfl

set_option maxRecDepth 8000 in
/-- C2: for any get_content with a page loaded (and readable), the result
fields satisfy the truncation invariants: `length` is the length of the
returned `text`, `truncated` is set iff the pre-truncation text exceeds the
effective cap, and a truncated text has length exactly the cap; concretely,
with cap 100 and extracted text of length 500 the output text has length
exactly 100, truncated is true and length is 100. -/
theorem c2_truncation :
    (∀ env cfg s a p ti html, s.page = some p →
       env.titleAt p = Except.ok ti → env.contentAt p = Except.ok html →
       (execute env cfg s "get_content" a).1 =
         [("url", JVal.s p), ("title", JVal.s ti), ("extractor", JVal.s "readability"),
          ("truncated", JVal.b (decide (effectiveCap cfg a.maxChars
             < (extractText env a.extractMode html).length))),
          ("length", JVal.i (Int.ofNat (truncatedText (extractText env a.extractMode html)
             (effectiveCap cfg a.maxChars)).length)),
          ("text", JVal.s (truncatedText (extractText env a.extractMode html)
             (effectiveCap cfg a.maxChars)))]) ∧
    (∀ pre cap, cap < pre.length → (truncatedText pre cap).length = cap) ∧
    (∀ pre cap, ¬ cap < pre.length → truncatedText pre cap = pre) ∧
    ((extractText envC2 "text" "<p>hi</p>").length = 500 ∧
     getField (execute envC2 cfg0 sLoaded "get_content" argsC2).1 "truncated"
       = some (JVal.b true) ∧
     getField (execute envC2 cfg0 sLoaded "get_content" argsC2).1 "length"
       = some (JVal.i 100) ∧
     getField (execute envC2 cfg0 sLoaded "get_content" argsC2).1 "text"
       = some (JVal.s (String.mk (List.replicate 100 'a')))) := by
  refine ⟨?_, ?_, ?_, by decide, by decide, by decide, by decide⟩
  · intro env cfg s a p ti html hp ht hc
    show wrap (getContent env cfg s a.extractMode a.maxChars).1 = _
    simp only [getContent, hp, ht, hc]
    rfl
  · intro pre cap h
    have hd : decide (cap < pre.length) = true := decide_eq_true h
    unfold truncatedText
    rw [hd]
    show (pre.data.take cap).length = cap
    rw [List.length_take]
    exact Nat.min_eq_left (Nat.le_of_lt h)
  · intro pre cap h
    have hd : decide (cap < pre.length) = false := decide_eq_false h
    unfold truncatedText
    rw [hd]
    rfl

/-- Witness for C2: the general field equation at the concrete 100/500
instance. -/
theorem c2_truncation_witness :
    (execute envC2 cfg0 sLoaded "get_content" argsC2).1 =
      [("url", JVal.s "http://p"), ("title", JVal.s "T"),
       ("extractor", JVal.s "readability"),
       ("truncated", JVal.b (decide (effectiveCap cfg0 argsC2.maxChars
          < (extractText envC2 argsC2.extractMode "<p>hi</p>").length))),
       ("length", JVal.i (Int.ofNat (truncatedText
          (extractText envC2 argsC2.extractMode "<p>hi</p>")
          (effectiveCap cfg0 argsC2.maxChars)).length)),
       ("text", JVal.s (truncatedText (extractText envC2 argsC2.extractMode "<p>hi</p>")
          (effectiveCap cfg0 argsC2.maxChars)))] :=
  c2_truncation.1 envC2 cfg0 sLoaded argsC2 "http://p" "T" "<p>hi</p>" rfl rfl rfl

set_option maxRecDepth 8000 in
/-- C3: the markdown conversion is the five substitutions applied once each
in the fixed order (anchors, headings, list items, block closers, breaks)
followed by tag-stripping and whitespace normalization; on the fixed input
HTML it yields exactly the lines `# Title` and `Hello [world](http://x)`, so
the output contains the line `# Title` and the link `[world](http://x)`. -/
theorem c3_markdown :
    (∀ h, toMarkdown h
       = normalize (stripTags (breakSub (closeBlockSub (liSub (headingSub (anchorSub h))))))) ∧
    linesOf (toMarkdown c3Html) = ["# Title", "Hello [world](http://x)"] ∧
    (∃ pre post, toMarkdown c3Html = pre ++ "[world](http://x)" ++ post) ∧
    (∃ l1 l2, linesOf (toMarkdown c3Html) = l1 ++ "# Title" :: l2) :=
  ⟨fun _ => rfl, by decide,
   ⟨"# Title\nHello ", "", by decide⟩,
   ⟨[], ["Hello [world](http://x)"], by decide⟩⟩

end WebBrowse
